import Mathlib

/-!
Verification of the rental-booking core of the vehicle rental backend
(`vrent/app/main.py`): date-range validation, overlap detection, pricing,
soft-delete semantics, and the error protocol of the create / update /
cancel endpoints.

Modelling conventions, all taken from the source:
* Calendar dates are day numbers (`ℤ`); `(end - start).days` and SQL
  `DATEDIFF(end, start)` both become integer subtraction `end - start`.
  In the concrete scenarios, 2024-04-0d is encoded as the integer `d`.
* Money (`price_per_day`, `total_cost`) is `ℚ`; Python's
  `round(x, 2)` (banker's rounding to 2 decimal places) is `round2`.
* `NULL`-able timestamps (`deleted_at`, `updated_at`) are `Option ℤ`.
* The database is an explicit record of vehicle and rental rows; each SQL
  statement of the source becomes a pure function over it.  `ORDER BY` /
  `LIMIT` / `OFFSET` clauses of the read endpoints only reorder or truncate
  the result list and are not modelled.
* An `HTTPException(status, detail)` is the record `HTTPErr`;
  endpoint handlers return `Except HTTPErr α`.
* The one genuinely external event — the `INSERT` raising a database
  error — is an explicit `Option String` argument (`none` = insert
  succeeds, `some msg` = the driver raised an exception with message
  `msg`), mirroring the `try/except` of `create_rental`.
-/

/-- One row of the `Vehicle` table: identity, catalog data, daily price and
the soft-delete tombstone. -/
structure Vehicle where
  vehicle_id : Nat
  make : String
  model : String
  price_per_day : ℚ
  deleted_at : Option ℤ
deriving DecidableEq, Repr

/-- One row of the `Rental` table. -/
structure Rental where
  rental_id : Nat
  user_id : Nat
  vehicle_id : Nat
  start_date : ℤ
  end_date : ℤ
  price_at_rental : ℚ
  total_cost : ℚ
  deleted_at : Option ℤ
  updated_at : Option ℤ
deriving DecidableEq, Repr

/-- The persistent store: the two tables and the auto-increment counter for
`rental_id`. -/
structure DB where
  vehicles : List Vehicle
  rentals : List Rental
  next_rental_id : Nat
deriving DecidableEq, Repr

/-- An `HTTPException(status_code, detail)` raised by a handler. -/
structure HTTPErr where
  status : Nat
  detail : String
deriving DecidableEq, Repr

/-- Error raised when a date range is malformed (`422`). -/
def invalidRangeError : HTTPErr :=
  ⟨422, "Invalid date range: start_date must be before end_date"⟩

/-- Error raised when an overlapping rental blocks the vehicle (`400`). -/
def vehicleUnavailableError : HTTPErr :=
  ⟨400, "Vehicle not available in the selected dates"⟩

/-- Error raised when the vehicle is absent or soft-deleted (`404`). -/
def vehicleNotFoundError : HTTPErr :=
  ⟨404, "Vehicle not found"⟩

/-- Error raised when the rental is absent or already cancelled (`404`). -/
def rentalNotFoundError : HTTPErr :=
  ⟨404, "Rental not found"⟩

/-- Generic `500` raised by `create_rental` on a non-1062 insert failure. -/
def createServerError : HTTPErr :=
  ⟨500, "Failed to create rental"⟩

/-- Generic `500` for an uncaught exception in a handler (FastAPI default). -/
def internalServerError : HTTPErr :=
  ⟨500, "Internal Server Error"⟩

/-- The request body `RentalCreateRequest` (also used verbatim as the
payload of the update endpoint in the source). -/
structure RentalCreateRequest where
  user_id : Nat
  vehicle_id : Nat
  start_date : ℤ
  end_date : ℤ
deriving DecidableEq, Repr

/-- The response schema `RentalResponse`. -/
structure RentalResponse where
  rental_id : Nat
  user_id : Nat
  vehicle_id : Nat
  make : Option String
  model : Option String
  start_date : ℤ
  end_date : ℤ
  total_days : ℤ
  total_price : ℚ
deriving DecidableEq, Repr

/-- Python's `round` to the nearest integer, ties to even (banker's
rounding), on exact rationals. -/
def pyRoundInt (q : ℚ) : ℤ :=
  if q - ⌊q⌋ < 1 / 2 then ⌊q⌋
  else if q - ⌊q⌋ > 1 / 2 then ⌊q⌋ + 1
  else if ⌊q⌋ % 2 = 0 then ⌊q⌋ else ⌊q⌋ + 1

/-- Python's `round(q, 2)`: round to two decimal places. -/
def round2 (q : ℚ) : ℚ :=
  (pyRoundInt (q * 100) : ℚ) / 100

/-- Whether the needle list is a leading segment of the haystack list. -/
def matchesAt : List Char → List Char → Bool
  | [], _ => true
  | _ :: _, [] => false
  | c :: cs, d :: ds => c == d && matchesAt cs ds

/-- Whether the needle occurs as a contiguous segment of the haystack. -/
def occursIn : List Char → List Char → Bool
  | needle, [] => needle.isEmpty
  | needle, d :: ds => matchesAt needle (d :: ds) || occursIn needle ds

/-- Python's substring test `token in msg` on strings. -/
def containsToken (msg token : String) : Bool :=
  occursIn token.toList msg.toList

/-- The create-path overlap test of `create_rental`: the SQL condition
`NOT (:end_date < start_date OR :start_date > end_date)` evaluated on a
stored row `[rowStart, rowEnd]` against the requested range `[s, e]`. -/
def createOverlap (rowStart rowEnd s e : ℤ) : Bool :=
  !(decide (e < rowStart) || decide (s > rowEnd))

/-- The update-path overlap test of `update_rental`: the SQL condition
`NOT (:end_date <= start_date OR :start_date >= end_date)` evaluated on a
stored row `[rowStart, rowEnd]` against the requested range `[s, e]`. -/
def updateOverlap (rowStart rowEnd s e : ℤ) : Bool :=
  !(decide (e ≤ rowStart) || decide (s ≥ rowEnd))

/-- The overlap query of `create_rental`: any rental of the vehicle —
with no `deleted_at` filter, so soft-cancelled rentals participate —
whose range passes `createOverlap`. -/
def hasCreateOverlap (db : DB) (vid : Nat) (s e : ℤ) : Bool :=
  db.rentals.any fun r =>
    decide (r.vehicle_id = vid) && createOverlap r.start_date r.end_date s e

/-- The overlap query of `update_rental`: any rental of the vehicle with
`rental_id <> :rid` and `deleted_at IS NULL` whose range passes
`updateOverlap`. -/
def hasUpdateOverlap (db : DB) (vid rid : Nat) (s e : ℤ) : Bool :=
  db.rentals.any fun r =>
    decide (r.vehicle_id = vid) && decide (r.rental_id ≠ rid) &&
      decide (r.deleted_at = none) && updateOverlap r.start_date r.end_date s e

/-- The vehicle lookup of `create_rental`:
`SELECT ... FROM Vehicle WHERE vehicle_id = :vid AND deleted_at IS NULL`. -/
def findVehicle (db : DB) (vid : Nat) : Option Vehicle :=
  db.vehicles.find? fun v =>
    decide (v.vehicle_id = vid) && decide (v.deleted_at = none)

/-- A vehicle lookup with no `deleted_at` filter, as in the
`JOIN Vehicle v ON v.vehicle_id = r.vehicle_id` of the read queries. -/
def findVehicleAny (db : DB) (vid : Nat) : Option Vehicle :=
  db.vehicles.find? fun v => decide (v.vehicle_id = vid)

/-- The rental lookup shared by `delete_rental` and `update_rental`:
`SELECT ... FROM Rental WHERE rental_id = :rid AND deleted_at IS NULL`. -/
def findRentalActive (db : DB) (rid : Nat) : Option Rental :=
  db.rentals.find? fun r =>
    decide (r.rental_id = rid) && decide (r.deleted_at = none)

/-- The handler `create_rental` of `POST /rentals`.  Steps, in source
order: (1) reject `end_date < start_date` with 422; (2) reject any
overlap — cancelled rentals included — with 400; (3) reject an absent or
soft-deleted vehicle with 404; (4) compute `total_days = diff + 1` and
`total_cost = round(price * days, 2)`; (5) insert, remapping a
`1062 ... uq_vehicle_date_overlap` failure to the same 400 and any other
failure to a generic 500.  `insertFailure` is the message of the exception
the insert raised, if any. -/
def createRental (db : DB) (req : RentalCreateRequest)
    (insertFailure : Option String) : Except HTTPErr (RentalResponse × DB) :=
  if req.end_date < req.start_date then
    .error invalidRangeError
  else if hasCreateOverlap db req.vehicle_id req.start_date req.end_date then
    .error vehicleUnavailableError
  else
    match findVehicle db req.vehicle_id with
    | none => .error vehicleNotFoundError
    | some v =>
      let price_per_day := v.price_per_day
      let total_days : ℤ := (req.end_date - req.start_date) + 1
      let total_cost := round2 (price_per_day * (total_days : ℚ))
      match insertFailure with
      | some msg =>
        if containsToken msg "1062" &&
            containsToken msg "uq_vehicle_date_overlap" then
          .error vehicleUnavailableError
        else
          .error createServerError
      | none =>
        let rid := db.next_rental_id
        let newRental : Rental :=
          { rental_id := rid, user_id := req.user_id,
            vehicle_id := req.vehicle_id, start_date := req.start_date,
            end_date := req.end_date, price_at_rental := price_per_day,
            total_cost := total_cost, deleted_at := none,
            updated_at := none }
        .ok
          ({ rental_id := rid, user_id := req.user_id,
             vehicle_id := req.vehicle_id, make := none, model := none,
             start_date := req.start_date, end_date := req.end_date,
             total_days := total_days, total_price := total_cost },
           { db with rentals := db.rentals ++ [newRental],
                     next_rental_id := rid + 1 })

/-- The effect of `UPDATE Rental SET deleted_at = CURRENT_TIMESTAMP WHERE
rental_id = :rid` on one row. -/
def cancelRow (now : ℤ) (rid : Nat) (r : Rental) : Rental :=
  if r.rental_id = rid then { r with deleted_at := some now } else r

/-- The handler `delete_rental` of `DELETE /rentals/{rental_id}`: look the
rental up with `deleted_at IS NULL`; 404 when absent, otherwise set
`deleted_at = CURRENT_TIMESTAMP` (`now`). -/
def deleteRental (db : DB) (rid : Nat) (now : ℤ) : Except HTTPErr DB :=
  match findRentalActive db rid with
  | none => .error rentalNotFoundError
  | some _ =>
    .ok { db with rentals := db.rentals.map (cancelRow now rid) }

/-- The effect on one row of the `UPDATE Rental SET start_date = ...,
end_date = ..., updated_at = CURRENT_TIMESTAMP WHERE rental_id = :rid` of
`update_rental`: dates and `updated_at` are set, every other column is
untouched. -/
def updateRow (payload : RentalCreateRequest) (now : ℤ) (rid : Nat)
    (r : Rental) : Rental :=
  if r.rental_id = rid then
    { r with start_date := payload.start_date,
             end_date := payload.end_date,
             updated_at := some now }
  else r

/-- The state after `update_rental`'s `UPDATE` statement: `updateRow`
applied to every rental row, vehicles untouched. -/
def applyUpdate (db : DB) (rid : Nat) (payload : RentalCreateRequest)
    (now : ℤ) : DB :=
  { db with rentals := db.rentals.map (updateRow payload now rid) }

/-- The handler `update_rental` of `PUT /rentals/{rental_id}`.  Steps, in
source order: (1) 404 unless the rental exists with `deleted_at IS NULL`;
(2) overlap check excluding the rental's own id, among active rentals
only, with strict bounds — 400 on a hit; (3) only then the date-order
check `start_date < end_date` — 422 on failure; (4) `UPDATE` of
`start_date`, `end_date`, `updated_at` (and nothing else — `applyUpdate`);
(5) re-select the row joined with `Vehicle` (no `deleted_at` filters) to
build the response, whose totals use the exclusive `DATEDIFF` times the
vehicle's current `price_per_day`. -/
def updateRental (db : DB) (rid : Nat) (payload : RentalCreateRequest)
    (now : ℤ) : Except HTTPErr (RentalResponse × DB) :=
  match findRentalActive db rid with
  | none => .error rentalNotFoundError
  | some existing =>
    if hasUpdateOverlap db existing.vehicle_id rid payload.start_date
        payload.end_date then
      .error vehicleUnavailableError
    else if !decide (payload.start_date < payload.end_date) then
      .error invalidRangeError
    else
      match (applyUpdate db rid payload now).rentals.find?
          fun r => decide (r.rental_id = rid) with
      | none => .error internalServerError
      | some r =>
        match findVehicleAny (applyUpdate db rid payload now)
            r.vehicle_id with
        | none => .error internalServerError
        | some v =>
          .ok
            ({ rental_id := r.rental_id, user_id := r.user_id,
               vehicle_id := r.vehicle_id, make := none, model := none,
               start_date := r.start_date, end_date := r.end_date,
               total_days := r.end_date - r.start_date,
               total_price := ((r.end_date - r.start_date : ℤ) : ℚ) *
                 v.price_per_day },
             applyUpdate db rid payload now)

/-- The row builder of `GET /rentals` (`list_rentals`): the join of an
active rental with its vehicle, with `DATEDIFF(end, start)` as
`total_days` and `DATEDIFF * price_per_day` as `total_price`. -/
def listRentalRow (r : Rental) (v : Vehicle) : RentalResponse :=
  { rental_id := r.rental_id, user_id := r.user_id,
    vehicle_id := r.vehicle_id, make := none, model := none,
    start_date := r.start_date, end_date := r.end_date,
    total_days := r.end_date - r.start_date,
    total_price := ((r.end_date - r.start_date : ℤ) : ℚ) * v.price_per_day }

/-- The handler `list_rentals` of `GET /rentals`: active rentals, joined
with `Vehicle`, optionally filtered by user and vehicle. -/
def listRentals (db : DB) (userFilter vehicleFilter : Option Nat) :
    List RentalResponse :=
  (db.rentals.filter fun r =>
      decide (r.deleted_at = none) &&
        (match userFilter with
         | none => true
         | some u => decide (r.user_id = u)) &&
        (match vehicleFilter with
         | none => true
         | some w => decide (r.vehicle_id = w))).filterMap
    fun r => (findVehicleAny db r.vehicle_id).map fun v => listRentalRow r v

/-- The handler `get_rental_by_id` of `GET /rentals/{rental_id}`: the
active rental joined with its vehicle (a join miss yields no row, hence
404), with `DATEDIFF` totals as in `listRentalRow`. -/
def getRentalById (db : DB) (rid : Nat) : Except HTTPErr RentalResponse :=
  match findRentalActive db rid with
  | none => .error rentalNotFoundError
  | some r =>
    match findVehicleAny db r.vehicle_id with
    | none => .error rentalNotFoundError
    | some v => .ok (listRentalRow r v)

/-- The row builder of `GET /users/{user_id}/rentals`
(`get_user_rentals`): `DATEDIFF` as `total_days` but the stored
`total_cost` as `total_price`, plus the vehicle's make and model. -/
def userRentalRow (r : Rental) (v : Vehicle) : RentalResponse :=
  { rental_id := r.rental_id, user_id := r.user_id,
    vehicle_id := r.vehicle_id, make := some v.make, model := some v.model,
    start_date := r.start_date, end_date := r.end_date,
    total_days := r.end_date - r.start_date,
    total_price := r.total_cost }

/-- The handler `get_user_rentals` of `GET /users/{user_id}/rentals`. -/
def getUserRentals (db : DB) (uid : Nat) (vehicleFilter : Option Nat) :
    List RentalResponse :=
  (db.rentals.filter fun r =>
      decide (r.deleted_at = none) && decide (r.user_id = uid) &&
        (match vehicleFilter with
         | none => true
         | some w => decide (r.vehicle_id = w))).filterMap
    fun r => (findVehicleAny db r.vehicle_id).map fun v => userRentalRow r v

/-!
Concrete scenario data, following §8 of the specification: one vehicle
with `price_per_day = 45.00`; dates in April 2024 encoded as day numbers,
`2024-04-0d ↦ d`; the timestamp of mutations is the arbitrary instant
`100`.
-/

/-- The scenario vehicle: `price_per_day = 45.00`, not deleted. -/
def vehA : Vehicle :=
  { vehicle_id := 1, make := "Toyota", model := "Camry",
    price_per_day := 45, deleted_at := none }

/-- The store before scenario A: the vehicle alone, no rentals. -/
def dbEmptyA : DB := { vehicles := [vehA], rentals := [], next_rental_id := 1 }

/-- Scenario A request: `2024-04-01 .. 2024-04-05`. -/
def reqA : RentalCreateRequest :=
  { user_id := 7, vehicle_id := 1, start_date := 1, end_date := 5 }

/-- The rental row scenario A creates. -/
def rentA : Rental :=
  { rental_id := 1, user_id := 7, vehicle_id := 1, start_date := 1,
    end_date := 5, price_at_rental := 45, total_cost := 225,
    deleted_at := none, updated_at := none }

/-- The response scenario A returns: `total_days = 5`, `total_price = 225`. -/
def respA : RentalResponse :=
  { rental_id := 1, user_id := 7, vehicle_id := 1, make := none,
    model := none, start_date := 1, end_date := 5, total_days := 5,
    total_price := 225 }

/-- The store after scenario A. -/
def dbA : DB := { vehicles := [vehA], rentals := [rentA], next_rental_id := 2 }

/-- Scenario B request: `2024-04-04 .. 2024-04-06`, overlapping A. -/
def reqB : RentalCreateRequest :=
  { user_id := 7, vehicle_id := 1, start_date := 4, end_date := 6 }

/-- The store after cancelling the scenario A rental at time `100`. -/
def dbACancelled : DB :=
  { vehicles := [vehA],
    rentals := [{ rentA with deleted_at := some 100 }],
    next_rental_id := 2 }

/-- A second active rental on the vehicle spanning `[10, 20]`. -/
def rentB : Rental :=
  { rental_id := 2, user_id := 8, vehicle_id := 1, start_date := 10,
    end_date := 20, price_at_rental := 45, total_cost := 495,
    deleted_at := none, updated_at := none }

/-- The store holding both `rentA` and `rentB`. -/
def dbAB : DB :=
  { vehicles := [vehA], rentals := [rentA, rentB], next_rental_id := 3 }

/-- A degenerate update payload with `start_date = end_date = 15`,
strictly inside the range of `rentB`. -/
def reqDeg : RentalCreateRequest :=
  { user_id := 7, vehicle_id := 1, start_date := 15, end_date := 15 }

/-- Update payload moving the scenario A rental to `[2, 9]`. -/
def reqC5 : RentalCreateRequest :=
  { user_id := 7, vehicle_id := 1, start_date := 2, end_date := 9 }

/-- The stored row after the `[2, 9]` update: dates and `updated_at`
changed, `total_cost` still `225`. -/
def rentC5 : Rental :=
  { rentA with start_date := 2, end_date := 9, updated_at := some 100 }

/-- Scenario D payload: `2024-04-02 .. 2024-04-06`. -/
def reqD : RentalCreateRequest :=
  { user_id := 7, vehicle_id := 1, start_date := 2, end_date := 6 }

/-- The result of scenario D's update: the response reports the exclusive
`DATEDIFF = 4` days and the on-the-fly product `4 × 45` (written unreduced,
exactly as the handler computes it); the store holds the re-dated row. -/
def outD : RentalResponse × DB :=
  ({ rental_id := 1, user_id := 7, vehicle_id := 1, make := none,
     model := none, start_date := 2, end_date := 6, total_days := 4,
     total_price := ((4 : ℤ) : ℚ) * 45 },
   { vehicles := [vehA], rentals := [updateRow reqD 100 1 rentA],
     next_rental_id := 2 })

/-- A one-day request `start_date = end_date = 3` on the vehicle. -/
def reqOne : RentalCreateRequest :=
  { user_id := 7, vehicle_id := 1, start_date := 3, end_date := 3 }

/-- A driver message for the backstop constraint tripping: MariaDB error
1062 on the key `uq_vehicle_date_overlap`. -/
def msgDup : String :=
  "(1062, Duplicate entry 1-2024-04-01 for key uq_vehicle_date_overlap)"

/-- A driver message for an unrelated storage failure. -/
def msgOther : String := "(2013, Lost connection to server during query)"

/-!
Helper lemmas, shared by the claim theorems below.
-/

/-- Rounding an exact integer returns it. -/
theorem pyRoundInt_intCast (n : ℤ) : pyRoundInt ((n : ℤ) : ℚ) = n := by
  unfold pyRoundInt
  rw [Int.floor_intCast]
  norm_num

/-- Evaluation rule for `round2` when the scaled argument is an exact
integer. -/
theorem round2_eq_of_mul_eq (q : ℚ) (n : ℤ) (h : q * 100 = ((n : ℤ) : ℚ)) :
    round2 q = ((n : ℤ) : ℚ) / 100 := by
  unfold round2
  rw [h, pyRoundInt_intCast]

/-- The scenario price: `round(45.00 × 5, 2) = 225.00`. -/
theorem round2_scenario_A : round2 ((45 : ℚ) * ((5 : ℤ) : ℚ)) = 225 := by
  rw [round2_eq_of_mul_eq ((45 : ℚ) * ((5 : ℤ) : ℚ)) 22500
    (by push_cast; norm_num)]
  norm_num

/-- C1 counterexample: the ranges `[0, 1]` and `[1, 2]` share exactly the
endpoint day `1`, so the claim's predicate `NOT (e1 < s2 OR s1 > e2)`
classifies them as overlapping and the create-path test agrees, but the
update-path test — strict comparisons in the source SQL — does not. -/
theorem C1_update_endpoint_counterexample :
    ¬ ((1 : ℤ) < 1 ∨ (0 : ℤ) > 2) ∧
      createOverlap 0 1 1 2 = true ∧ updateOverlap 0 1 1 2 = false := by
  decide

/-- C1 amended: the create-path test classifies `[s1,e1]`, `[s2,e2]` as
overlapping exactly when `NOT (e1 < s2 OR s1 > e2)` and is symmetric; the
update-path test is also symmetric but strict — it classifies them as
overlapping exactly when `s1 < e2 AND s2 < e1`, so two ranges sharing only
a single endpoint day overlap on the create path but not on the update
path. -/
theorem C1_overlap_predicates :
    (∀ s1 e1 s2 e2 : ℤ,
      createOverlap s1 e1 s2 e2 = true ↔ ¬ (e1 < s2 ∨ s1 > e2)) ∧
    (∀ s1 e1 s2 e2 : ℤ,
      createOverlap s1 e1 s2 e2 = createOverlap s2 e2 s1 e1) ∧
    (∀ s1 e1 s2 e2 : ℤ,
      updateOverlap s1 e1 s2 e2 = true ↔ s1 < e2 ∧ s2 < e1) ∧
    (∀ s1 e1 s2 e2 : ℤ,
      updateOverlap s1 e1 s2 e2 = updateOverlap s2 e2 s1 e1) ∧
    (∀ s1 e1 s2 e2 : ℤ, e1 = s2 → s1 ≤ e1 → s2 ≤ e2 →
      createOverlap s1 e1 s2 e2 = true ∧ updateOverlap s1 e1 s2 e2 = false) := by
  refine ⟨?_, ?_, ?_, ?_, ?_⟩
  · intro s1 e1 s2 e2
    simp only [createOverlap, Bool.not_eq_true', Bool.or_eq_false_iff,
      decide_eq_false_iff_not]
    omega
  · intro s1 e1 s2 e2
    rw [Bool.eq_iff_iff]
    simp only [createOverlap, Bool.not_eq_true', Bool.or_eq_false_iff,
      decide_eq_false_iff_not]
    omega
  · intro s1 e1 s2 e2
    simp only [updateOverlap, Bool.not_eq_true', Bool.or_eq_false_iff,
      decide_eq_false_iff_not]
    omega
  · intro s1 e1 s2 e2
    rw [Bool.eq_iff_iff]
    simp only [updateOverlap, Bool.not_eq_true', Bool.or_eq_false_iff,
      decide_eq_false_iff_not]
    omega
  · intro s1 e1 s2 e2 h1 h2 h3
    constructor
    · simp only [createOverlap, Bool.not_eq_true', Bool.or_eq_false_iff,
        decide_eq_false_iff_not]
      omega
    · simp only [updateOverlap, Bool.not_eq_false', Bool.or_eq_true,
        decide_eq_true_eq]
      omega

/-- C1 witness: the amended statement at the concrete endpoint-sharing
pair `[0, 1]`, `[1, 2]`. -/
theorem C1_overlap_predicates_witness :
    createOverlap 0 1 1 2 = true ∧ updateOverlap 0 1 1 2 = false :=
  C1_overlap_predicates.2.2.2.2 0 1 1 2 (by decide) (by decide) (by decide)

/-- C2: every create request that passes validation books an inclusive
number of days — `total_days = (end - start) + 1` — and a total of
`round(price_per_day * total_days, 2)`; in particular scenario A
(`price_per_day = 45.00`, `2024-04-01 .. 2024-04-05`) yields
`total_days = 5` and `total_cost = 225.00`. -/
theorem C2_create_pricing :
    (∀ db req v, ¬ req.end_date < req.start_date →
      hasCreateOverlap db req.vehicle_id req.start_date req.end_date = false →
      findVehicle db req.vehicle_id = some v →
      (createRental db req none).map (fun o => o.1.total_days) =
        .ok (req.end_date - req.start_date + 1) ∧
      (createRental db req none).map (fun o => o.1.total_price) =
        .ok (round2 (v.price_per_day *
          ((req.end_date - req.start_date + 1 : ℤ) : ℚ)))) ∧
    (createRental dbEmptyA reqA none).map (fun o => o.1.total_days) = .ok 5 ∧
    (createRental dbEmptyA reqA none).map (fun o => o.1.total_price) = .ok 225 := by
  refine ⟨?_, rfl, ?_⟩
  · intro db req v h1 h2 h3
    unfold createRental
    rw [if_neg h1, if_neg (by simp [h2]), h3]
    exact ⟨rfl, rfl⟩
  · have h : (createRental dbEmptyA reqA none).map (fun o => o.1.total_price) =
        .ok (round2 ((45 : ℚ) * ((5 : ℤ) : ℚ))) := rfl
    rw [h, round2_scenario_A]

/-- C2 witness: the general statement applied to scenario A's store,
request and vehicle. -/
theorem C2_create_pricing_witness :
    (createRental dbEmptyA reqA none).map (fun o => o.1.total_days) =
      .ok (reqA.end_date - reqA.start_date + 1) ∧
    (createRental dbEmptyA reqA none).map (fun o => o.1.total_price) =
      .ok (round2 (vehA.price_per_day *
        ((reqA.end_date - reqA.start_date + 1 : ℤ) : ℚ))) :=
  C2_create_pricing.1 dbEmptyA reqA vehA (by decide) rfl rfl

/-- C3: the create protocol in source order — a malformed range is 422
`InvalidRange`; otherwise an overlap with any rental of the vehicle,
soft-cancelled ones included (third conjunct: a cancelled row still
triggers the query), is 400 `VehicleUnavailable`; otherwise an absent or
soft-deleted vehicle is 404 `VehicleNotFound`; otherwise the booking
succeeds.  Consequently (last two conjuncts) cancelling the scenario A
rental and re-creating the identical dates is still rejected with
`VehicleUnavailable`. -/
theorem C3_create_protocol :
    (∀ db req ins, req.end_date < req.start_date →
      createRental db req ins = .error invalidRangeError) ∧
    (∀ db req ins, ¬ req.end_date < req.start_date →
      hasCreateOverlap db req.vehicle_id req.start_date req.end_date = true →
      createRental db req ins = .error vehicleUnavailableError) ∧
    (∀ db vid s e r, r ∈ db.rentals → r.vehicle_id = vid →
      createOverlap r.start_date r.end_date s e = true →
      hasCreateOverlap db vid s e = true) ∧
    (∀ db req ins, ¬ req.end_date < req.start_date →
      hasCreateOverlap db req.vehicle_id req.start_date req.end_date = false →
      findVehicle db req.vehicle_id = none →
      createRental db req ins = .error vehicleNotFoundError) ∧
    (∀ db req v, ¬ req.end_date < req.start_date →
      hasCreateOverlap db req.vehicle_id req.start_date req.end_date = false →
      findVehicle db req.vehicle_id = some v →
      (createRental db req none).map (fun o => o.1.rental_id) =
        .ok db.next_rental_id) ∧
    deleteRental dbA 1 100 = .ok dbACancelled ∧
    createRental dbACancelled reqA none = .error vehicleUnavailableError := by
  refine ⟨?_, ?_, ?_, ?_, ?_, rfl, rfl⟩
  · intro db req ins h1
    unfold createRental
    rw [if_pos h1]
  · intro db req ins h1 h2
    unfold createRental
    rw [if_neg h1, if_pos h2]
  · intro db vid s e r hr hv ho
    unfold hasCreateOverlap
    rw [List.any_eq_true]
    exact ⟨r, hr, by simp [hv, ho]⟩
  · intro db req ins h1 h2 h3
    unfold createRental
    rw [if_neg h1, if_neg (by simp [h2]), h3]
  · intro db req v h1 h2 h3
    unfold createRental
    rw [if_neg h1, if_neg (by simp [h2]), h3]
    rfl

/-- C3 witness: scenario B — with the scenario A rental active, creating
`2024-04-04 .. 2024-04-06` on the same vehicle is rejected with
`VehicleUnavailable`. -/
theorem C3_create_protocol_witness :
    createRental dbA reqB none = .error vehicleUnavailableError :=
  C3_create_protocol.2.1 dbA reqB none (by decide) rfl

/-- C4 counterexample: the update handler runs its overlap check before
validating the date order, so the degenerate payload `[15, 15]`
(`start_date >= end_date`) on a vehicle that has another active rental
spanning `[10, 20]` is rejected with `VehicleUnavailable` (400), not with
`InvalidRange` (422) as the claim requires. -/
theorem C4_order_counterexample :
    reqDeg.end_date ≤ reqDeg.start_date ∧
      updateRental dbAB 1 reqDeg 100 = .error vehicleUnavailableError ∧
      vehicleUnavailableError ≠ invalidRangeError :=
  ⟨by decide, rfl, by decide⟩

/-- C4 amended: on update the overlap check — excluding the rental's own
id, considering only rentals with `deleted_at IS NULL`, with strict
bounds — runs first and yields `VehicleUnavailable`; only when it finds
nothing does the date-order validation run, so `start_date >= end_date`
yields `InvalidRange` only in that case.  The third conjunct characterises
the overlap query's candidate set. -/
theorem C4_update_validation_order :
    (∀ db rid payload now r0, findRentalActive db rid = some r0 →
      hasUpdateOverlap db r0.vehicle_id rid payload.start_date
        payload.end_date = true →
      updateRental db rid payload now = .error vehicleUnavailableError) ∧
    (∀ db rid payload now r0, findRentalActive db rid = some r0 →
      hasUpdateOverlap db r0.vehicle_id rid payload.start_date
        payload.end_date = false →
      payload.end_date ≤ payload.start_date →
      updateRental db rid payload now = .error invalidRangeError) ∧
    (∀ db vid rid s e, hasUpdateOverlap db vid rid s e = true ↔
      ∃ r ∈ db.rentals, r.vehicle_id = vid ∧ r.rental_id ≠ rid ∧
        r.deleted_at = none ∧ r.start_date < e ∧ s < r.end_date) := by
  refine ⟨?_, ?_, ?_⟩
  · intro db rid payload now r0 h0 h1
    unfold updateRental
    simp only [h0]
    rw [if_pos h1]
  · intro db rid payload now r0 h0 h1 h2
    have hc : (!decide (payload.start_date < payload.end_date)) = true := by
      simp only [Bool.not_eq_true', decide_eq_false_iff_not]
      omega
    unfold updateRental
    simp only [h0]
    rw [if_neg (by simp [h1]), if_pos hc]
  · intro db vid rid s e
    simp only [hasUpdateOverlap, List.any_eq_true, Bool.and_eq_true,
      decide_eq_true_eq, updateOverlap, Bool.not_eq_true',
      Bool.or_eq_false_iff, decide_eq_false_iff_not]
    constructor
    · rintro ⟨r, hr, ⟨⟨⟨hv, hi⟩, hd⟩, hs, he⟩⟩
      exact ⟨r, hr, hv, hi, hd, by omega, by omega⟩
    · rintro ⟨r, hr, hv, hi, hd, hs, he⟩
      exact ⟨r, hr, ⟨⟨⟨hv, hi⟩, hd⟩, by omega, by omega⟩⟩

/-- C4 witness: the overlap-first branch at the concrete store `dbAB`. -/
theorem C4_update_validation_order_witness :
    updateRental dbAB 1 reqDeg 100 = .error vehicleUnavailableError :=
  C4_update_validation_order.1 dbAB 1 reqDeg 100 rentA rfl rfl

/-- C5 counterexample: updating the scenario A rental to `[2, 9]`
succeeds and stores the new dates, but the stored `total_cost` is still
`225.00` — it is not recomputed, under either the inclusive convention
(`round(45 × 8, 2) = 360`) or the exclusive one (`7 × 45 = 315`). -/
theorem C5_stored_cost_counterexample :
    (updateRental dbA 1 reqC5 100).map (fun o => o.2.rentals) =
      .ok [rentC5] ∧
    rentC5.start_date = 2 ∧ rentC5.end_date = 9 ∧ rentC5.total_cost = 225 ∧
    round2 (rentC5.price_at_rental *
      ((rentC5.end_date - rentC5.start_date + 1 : ℤ) : ℚ)) ≠
      rentC5.total_cost ∧
    ((rentC5.end_date - rentC5.start_date : ℤ) : ℚ) * rentC5.price_at_rental ≠
      rentC5.total_cost := by
  refine ⟨rfl, rfl, rfl, rfl, ?_, ?_⟩
  · have h1 : rentC5.price_at_rental = 45 := rfl
    have h2 : rentC5.end_date - rentC5.start_date + 1 = (8 : ℤ) := by decide
    have h3 : rentC5.total_cost = 225 := rfl
    rw [h1, h2, h3, round2_eq_of_mul_eq _ 36000 (by push_cast; norm_num)]
    norm_num
  · have h1 : rentC5.price_at_rental = 45 := rfl
    have h2 : rentC5.end_date - rentC5.start_date = (7 : ℤ) := by decide
    have h3 : rentC5.total_cost = 225 := rfl
    rw [h1, h2, h3]
    norm_num

/-- C5 amended: a successful update leaves the vehicles table unchanged
and maps `updateRow` over the rentals table, and `updateRow` sets only
`start_date`, `end_date` and `updated_at` of the row with the rental's id
— `rental_id`, `user_id`, `vehicle_id`, `price_at_rental`, the stored
`total_cost` and `deleted_at` are never modified, and other rows are
untouched.  (The recomputed total appears only in the response, not in the
store.) -/
theorem C5_update_frame :
    (∀ db rid payload now out, updateRental db rid payload now = .ok out →
      out.2.vehicles = db.vehicles ∧
      out.2.rentals = db.rentals.map (updateRow payload now rid)) ∧
    (∀ payload now rid r,
      (updateRow payload now rid r).rental_id = r.rental_id ∧
      (updateRow payload now rid r).user_id = r.user_id ∧
      (updateRow payload now rid r).vehicle_id = r.vehicle_id ∧
      (updateRow payload now rid r).price_at_rental = r.price_at_rental ∧
      (updateRow payload now rid r).total_cost = r.total_cost ∧
      (updateRow payload now rid r).deleted_at = r.deleted_at ∧
      (r.rental_id = rid →
        (updateRow payload now rid r).start_date = payload.start_date ∧
        (updateRow payload now rid r).end_date = payload.end_date ∧
        (updateRow payload now rid r).updated_at = some now) ∧
      (r.rental_id ≠ rid → updateRow payload now rid r = r)) := by
  constructor
  · intro db rid payload now out h
    unfold updateRental at h
    cases hf : findRentalActive db rid with
    | none => rw [hf] at h; simp at h
    | some r0 =>
      simp only [hf] at h
      split at h
      · simp at h
      · split at h
        · simp at h
        · split at h
          · simp at h
          · split at h
            · simp at h
            · rw [Except.ok.injEq] at h
              subst h
              exact ⟨rfl, rfl⟩
  · intro payload now rid r
    unfold updateRow
    by_cases hrid : r.rental_id = rid
    · rw [if_pos hrid]
      exact ⟨rfl, rfl, rfl, rfl, rfl, rfl, fun _ => ⟨rfl, rfl, rfl⟩,
        fun hn => absurd hrid hn⟩
    · rw [if_neg hrid]
      exact ⟨rfl, rfl, rfl, rfl, rfl, rfl, fun hy => absurd hy hrid,
        fun _ => rfl⟩

/-- C5 witness: the frame statement at scenario D's concrete update. -/
theorem C5_update_frame_witness :
    outD.2.vehicles = dbA.vehicles ∧
    outD.2.rentals = dbA.rentals.map (updateRow reqD 100 1) :=
  C5_update_frame.1 dbA 1 reqD 100 outD rfl

/-- C6 counterexample: scenario D's update succeeds, but the returned
record does not report `total_days = 5` and `225.00` — the response is
built from the exclusive `DATEDIFF`, giving `4` days and `4 × 45 = 180`. -/
theorem C6_update_totals_counterexample :
    updateRental dbA 1 reqD 100 = .ok outD ∧
      outD.1.total_days ≠ 5 ∧ outD.1.total_price ≠ 225 := by
  refine ⟨rfl, by decide, ?_⟩
  have h : outD.1.total_price = ((4 : ℤ) : ℚ) * 45 := rfl
  rw [h]
  norm_num

/-- C6 amended: updating the scenario A rental to `2024-04-02 ..
2024-04-06` succeeds and the returned record reports `total_days = 4` and
total `180.00` (exclusive `DATEDIFF` times the current price); the stored
`price_at_rental` stays `45` and the stored `total_cost` stays `225`. -/
theorem C6_update_scenario_D :
    updateRental dbA 1 reqD 100 = .ok outD ∧
      outD.1.total_days = 4 ∧ outD.1.total_price = 180 ∧
      (updateRow reqD 100 1 rentA).price_at_rental = 45 ∧
      (updateRow reqD 100 1 rentA).total_cost = 225 := by
  refine ⟨rfl, rfl, ?_, rfl, rfl⟩
  have h : outD.1.total_price = ((4 : ℤ) : ℚ) * 45 := rfl
  rw [h]
  norm_num

/-- C7: cancellation succeeds — `deleted_at` set to the current time on
the matching row, nothing else changed — exactly when an active rental
with that id exists; a missing or already-cancelled id yields
`RentalNotFound`, and a second cancel of a just-cancelled id always
yields `RentalNotFound`. -/
theorem C7_cancel_semantics :
    (∀ db rid now, findRentalActive db rid = none →
      deleteRental db rid now = .error rentalNotFoundError) ∧
    (∀ db rid now r0, findRentalActive db rid = some r0 →
      deleteRental db rid now =
        .ok { db with rentals := db.rentals.map (cancelRow now rid) }) ∧
    (∀ now rid r,
      (r.rental_id = rid →
        cancelRow now rid r = { r with deleted_at := some now }) ∧
      (r.rental_id ≠ rid → cancelRow now rid r = r)) ∧
    (∀ db rid now now2 db1, deleteRental db rid now = .ok db1 →
      deleteRental db1 rid now2 = .error rentalNotFoundError) := by
  refine ⟨?_, ?_, ?_, ?_⟩
  · intro db rid now h
    unfold deleteRental
    rw [h]
  · intro db rid now r0 h
    unfold deleteRental
    rw [h]
  · intro now rid r
    constructor
    · intro h
      unfold cancelRow
      rw [if_pos h]
    · intro h
      unfold cancelRow
      rw [if_neg h]
  · intro db rid now now2 db1 h
    unfold deleteRental at h
    cases hf : findRentalActive db rid with
    | none => rw [hf] at h; simp at h
    | some r0 =>
      simp only [hf] at h
      rw [Except.ok.injEq] at h
      subst h
      have hnone : findRentalActive
          { db with rentals := db.rentals.map (cancelRow now rid) } rid =
          none := by
        unfold findRentalActive
        rw [List.find?_eq_none]
        intro x hx
        simp only [List.mem_map] at hx
        obtain ⟨y, hy, rfl⟩ := hx
        unfold cancelRow
        by_cases hrid : y.rental_id = rid
        · rw [if_pos hrid]
          simp
        · rw [if_neg hrid]
          simp [hrid]
      unfold deleteRental
      rw [hnone]

/-- C7 witness: double cancel on the scenario A store — the first call
returned the cancelled store, the second call is `RentalNotFound`. -/
theorem C7_cancel_semantics_witness :
    deleteRental dbACancelled 1 100 = .error rentalNotFoundError :=
  C7_cancel_semantics.2.2.2 dbA 1 100 100 dbACancelled rfl

/-- C8: the overlap error the validator produces (first conjunct) is the
same `vehicleUnavailableError` that `create_rental` raises when the
insert fails with a message containing both `1062` and
`uq_vehicle_date_overlap` (second conjunct); any other insert failure is
reported as the generic 500 (third conjunct) — in every case the result
is an error, never a retry. -/
theorem C8_insert_failure_mapping :
    (∀ db req ins, ¬ req.end_date < req.start_date →
      hasCreateOverlap db req.vehicle_id req.start_date req.end_date = true →
      createRental db req ins = .error vehicleUnavailableError) ∧
    (∀ db req msg v, ¬ req.end_date < req.start_date →
      hasCreateOverlap db req.vehicle_id req.start_date req.end_date = false →
      findVehicle db req.vehicle_id = some v →
      (containsToken msg "1062" &&
        containsToken msg "uq_vehicle_date_overlap") = true →
      createRental db req (some msg) = .error vehicleUnavailableError) ∧
    (∀ db req msg v, ¬ req.end_date < req.start_date →
      hasCreateOverlap db req.vehicle_id req.start_date req.end_date = false →
      findVehicle db req.vehicle_id = some v →
      (containsToken msg "1062" &&
        containsToken msg "uq_vehicle_date_overlap") = false →
      createRental db req (some msg) = .error createServerError) := by
  refine ⟨?_, ?_, ?_⟩
  · intro db req ins h1 h2
    unfold createRental
    rw [if_neg h1, if_pos h2]
  · intro db req msg v h1 h2 h3 h4
    unfold createRental
    rw [if_neg h1, if_neg (by simp [h2])]
    simp only [h3]
    rw [if_pos h4]
  · intro db req msg v h1 h2 h3 h4
    unfold createRental
    rw [if_neg h1, if_neg (by simp [h2])]
    simp only [h3]
    rw [if_neg (by simp [h4])]

/-- C8 witness: the remap branch at a concrete 1062 backstop message, and
the generic 500 at a concrete unrelated message. -/
theorem C8_insert_failure_mapping_witness :
    createRental dbEmptyA reqA (some msgDup) = .error vehicleUnavailableError ∧
    createRental dbEmptyA reqA (some msgOther) = .error createServerError :=
  ⟨C8_insert_failure_mapping.2.1 dbEmptyA reqA msgDup vehA
      (by decide) rfl rfl rfl,
   C8_insert_failure_mapping.2.2 dbEmptyA reqA msgOther vehA
      (by decide) rfl rfl rfl⟩

/-- C9: every rental row a read endpoint returns — `GET /rentals`,
`GET /rentals/id`, `GET /users/id/rentals` — reports the exclusive day
difference `end_date - start_date` as `total_days`, without the `+1` used
at creation time. -/
theorem C9_read_exclusive_days :
    (∀ db uf vf resp, resp ∈ listRentals db uf vf →
      resp.total_days = resp.end_date - resp.start_date) ∧
    (∀ db rid resp, getRentalById db rid = .ok resp →
      resp.total_days = resp.end_date - resp.start_date) ∧
    (∀ db uid vf resp, resp ∈ getUserRentals db uid vf →
      resp.total_days = resp.end_date - resp.start_date) := by
  refine ⟨?_, ?_, ?_⟩
  · intro db uf vf resp hm
    unfold listRentals at hm
    rw [List.mem_filterMap] at hm
    obtain ⟨r, hr, he⟩ := hm
    rw [Option.map_eq_some'] at he
    obtain ⟨v, hv, he2⟩ := he
    rw [← he2]
    rfl
  · intro db rid resp h
    unfold getRentalById at h
    cases hf : findRentalActive db rid with
    | none => rw [hf] at h; simp at h
    | some r =>
      simp only [hf] at h
      cases hv : findVehicleAny db r.vehicle_id with
      | none => rw [hv] at h; simp at h
      | some v =>
        simp only [hv] at h
        rw [Except.ok.injEq] at h
        subst h
        rfl
  · intro db uid vf resp hm
    unfold getUserRentals at hm
    rw [List.mem_filterMap] at hm
    obtain ⟨r, hr, he⟩ := hm
    rw [Option.map_eq_some'] at he
    obtain ⟨v, hv, he2⟩ := he
    rw [← he2]
    rfl

/-- C9 witness: the three read paths on the scenario A store, whose one
rental spans `[1, 5]` — each reports `total_days = 5 - 1 = 4`. -/
theorem C9_read_exclusive_days_witness :
    (listRentalRow rentA vehA).total_days =
      (listRentalRow rentA vehA).end_date -
        (listRentalRow rentA vehA).start_date ∧
    (userRentalRow rentA vehA).total_days =
      (userRentalRow rentA vehA).end_date -
        (userRentalRow rentA vehA).start_date :=
  ⟨C9_read_exclusive_days.1 dbA none none (listRentalRow rentA vehA)
      (List.Mem.head _),
   C9_read_exclusive_days.2.2 dbA 7 none (userRentalRow rentA vehA)
      (List.Mem.head _)⟩

/-- C10: a one-day request `start_date = end_date = d` passes the create
validation — only `end_date < start_date` is rejected there — and books
`total_days = 1`, while the update path, whose date check demands the
strict `start_date < end_date`, rejects the same range with
`InvalidRange` whenever its overlap check finds nothing. -/
theorem C10_one_day_asymmetry :
    (∀ db req v, req.start_date = req.end_date →
      hasCreateOverlap db req.vehicle_id req.start_date req.end_date = false →
      findVehicle db req.vehicle_id = some v →
      (createRental db req none).map (fun o => o.1.total_days) = .ok 1) ∧
    (∀ db rid payload now r0, payload.start_date = payload.end_date →
      findRentalActive db rid = some r0 →
      hasUpdateOverlap db r0.vehicle_id rid payload.start_date
        payload.end_date = false →
      updateRental db rid payload now = .error invalidRangeError) := by
  constructor
  · intro db req v heq h2 h3
    have h1 : ¬ req.end_date < req.start_date := by omega
    unfold createRental
    rw [if_neg h1, if_neg (by simp [h2]), h3]
    show Except.ok (req.end_date - req.start_date + 1) = Except.ok 1
    rw [show req.end_date - req.start_date + 1 = 1 by omega]
  · intro db rid payload now r0 heq h0 h1
    have hc : (!decide (payload.start_date < payload.end_date)) = true := by
      simp only [Bool.not_eq_true', decide_eq_false_iff_not]
      omega
    unfold updateRental
    simp only [h0]
    rw [if_neg (by simp [h1]), if_pos hc]

/-- C10 witness: the one-day request `[3, 3]` — accepted by create on the
empty store with `total_days = 1`, rejected by update with
`InvalidRange`. -/
theorem C10_one_day_asymmetry_witness :
    (createRental dbEmptyA reqOne none).map (fun o => o.1.total_days) =
      .ok 1 ∧
    updateRental dbA 1 reqOne 100 = .error invalidRangeError :=
  ⟨C10_one_day_asymmetry.1 dbEmptyA reqOne vehA rfl rfl rfl,
   C10_one_day_asymmetry.2 dbA 1 reqOne 100 rentA rfl rfl rfl⟩
